import Mathlib

/-!
Verification model of the AI-Test-Plan-Creator-With-Jira backend.

Shallow embedding of the test-plan generation pipeline:
- event stream vocabulary (GenerationStreamEvent) and the ApiError taxonomy
  from src/backend/src/middleware/errorHandler.ts;
- TemplateService (template store CRUD, default-template handling);
- JiraTicketService (ticket cache upsert);
- the two LLM provider adapters (GroqProvider and OllamaProvider) as functions
  of their environment inputs (upstream chunk streams, thrown upstream errors);
- TestPlanService.generate, the orchestrator, as a function from its resolved
  environment (ticket cache, template store, provider stream outcome, history
  write success) to the full emitted event sequence, the optionally rethrown
  exception and the history rows written.

Machine-level effects are made explicit: the SQLite tables become lists of
rows threaded through the operations, thrown JavaScript values become an
explicit Thrown type, and an async generator becomes the list of events it
yields paired with the exception (if any) that terminates it.  Advisory
fractional progress values (JavaScript floats) are modelled as exact
rationals; no claim depends on them.
-/

/-- Event kinds of GenerationStreamEvent (src/backend/src/types). -/
inductive EventType where
  | progress
  | content
  | complete
  | error
deriving DecidableEq

/-- One streamed event: type, data payload and optional progress percentage. -/
structure Event where
  type : EventType
  data : String
  progress : Option ℚ := none
deriving DecidableEq

/-- ApiError from src/backend/src/middleware/errorHandler.ts: an Error
carrying an HTTP status and a machine-readable code. -/
structure ApiError where
  message : String
  status : Nat
  code : String
deriving DecidableEq

/-- Errors.BadRequest (errorHandler.ts). -/
def Errors.BadRequest (message : String) : ApiError :=
  ⟨message, 400, "BAD_REQUEST"⟩

/-- Errors.Unauthorized (errorHandler.ts). -/
def Errors.Unauthorized (message : String) : ApiError :=
  ⟨message, 401, "UNAUTHORIZED"⟩

/-- Errors.NotFound (errorHandler.ts): message is the resource name followed
by " not found". -/
def Errors.NotFound (resource : String) : ApiError :=
  ⟨resource ++ " not found", 404, "NOT_FOUND"⟩

/-- Errors.TooManyRequests (errorHandler.ts). -/
def Errors.TooManyRequests (message : String) : ApiError :=
  ⟨message, 429, "TOO_MANY_REQUESTS"⟩

/-- Errors.Internal (errorHandler.ts). -/
def Errors.Internal (message : String) : ApiError :=
  ⟨message, 500, "INTERNAL_ERROR"⟩

/-- Errors.BadGateway (errorHandler.ts). -/
def Errors.BadGateway (message : String) : ApiError :=
  ⟨message, 502, "BAD_GATEWAY"⟩

/-- A thrown JavaScript value as the catch block of the orchestrator discriminates
it: an ApiError (an Error instance with a status field), a plain Error
(message, no status), or a non-Error value. -/
inductive Thrown where
  | api (e : ApiError)
  | generic (msg : String)
  | nonError
deriving DecidableEq

/-- Does the thrown value satisfy the catch-block test
"error instanceof Error and has a status field"? -/
def Thrown.isApi : Thrown → Bool
  | .api _ => true
  | .generic _ => false
  | .nonError => false

/-- The message used when reporting a thrown value:
"error instanceof Error ? error.message : fallback". -/
def Thrown.messageOr (fallback : String) : Thrown → String
  | .api e => e.message
  | .generic m => m
  | .nonError => fallback

/-- Outcome of fully consuming the async generator of a provider: the events it
yielded, and the exception (if any) that escaped it afterwards. -/
structure StreamOutcome where
  events : List Event
  thrown : Option Thrown := none
deriving DecidableEq

/-- The provider selection of GenerationOptions. -/
inductive ProviderName where
  | groq
  | ollama
deriving DecidableEq

/-- The provider name string as used in template literals and history rows. -/
def ProviderName.name : ProviderName → String
  | .groq => "groq"
  | .ollama => "ollama"

/-! ## Template store (src/unnamed/part_009, TemplateService) -/

/-- A row of the templates table (schema in database/connection.ts):
is_default is the 0/1 flag, created_at a timestamp. -/
structure TemplateRow where
  id : Nat
  name : String
  filename : String
  filepath : String
  content : String
  is_default : Bool
  created_at : Nat
deriving DecidableEq

/-- The templates table: rows in insertion (rowid) order plus the next
AUTOINCREMENT id. -/
structure TemplateTable where
  rows : List TemplateRow
  nextId : Nat
deriving DecidableEq

namespace TemplateService

/-- SELECT COUNT from templates (TemplateService.getCount). -/
def getCount (tbl : TemplateTable) : Nat :=
  tbl.rows.length

/-- TemplateService.hasTemplates: getCount is positive. -/
def hasTemplates (tbl : TemplateTable) : Bool :=
  getCount tbl > 0

/-- TemplateService.shouldBeDefault: a new template is default when no
template exists yet. -/
def shouldBeDefault (tbl : TemplateTable) : Bool :=
  !(hasTemplates tbl)

/-- UPDATE templates SET is_default = 0 WHERE is_default = 1. -/
def clearDefaults (rows : List TemplateRow) : List TemplateRow :=
  rows.map (fun r => { r with is_default := false })

/-- TemplateService.insertTemplate: when the new template is default, first
clear the previous default, then INSERT the new row. -/
def insertTemplate (tbl : TemplateTable) (name filename filepath content : String)
    (isDefault : Bool) (now : Nat) : TemplateTable × Nat :=
  let rows := if isDefault then clearDefaults tbl.rows else tbl.rows
  (⟨rows ++ [⟨tbl.nextId, name, filename, filepath, content, isDefault, now⟩],
    tbl.nextId + 1⟩, tbl.nextId)

/-- TemplateService.createTemplate, database effect: the uploaded template is
inserted with is_default decided by shouldBeDefault.  The upload validation
and PDF text extraction preceding this either throw before any store effect
or produce the content string passed here. -/
def createTemplate (tbl : TemplateTable) (name filename filepath content : String)
    (now : Nat) : TemplateTable × Nat :=
  insertTemplate tbl name filename filepath content (shouldBeDefault tbl) now

/-- SELECT * FROM templates WHERE id = ? (TemplateService.getTemplate). -/
def getTemplate (tbl : TemplateTable) (id : Nat) : Option TemplateRow :=
  tbl.rows.find? (fun r => r.id = id)

/-- Ordering used by getAllTemplates: ORDER BY is_default DESC,
created_at DESC. -/
def templateBefore (a b : TemplateRow) : Bool :=
  if a.is_default = b.is_default then b.created_at ≤ a.created_at
  else a.is_default

/-- Insert a row into a list already ordered by templateBefore. -/
def insertOrdered (r : TemplateRow) : List TemplateRow → List TemplateRow
  | [] => [r]
  | x :: xs => if templateBefore r x then r :: x :: xs else x :: insertOrdered r xs

/-- TemplateService.getAllTemplates: all rows sorted default-first then
newest-first (stable insertion sort standing for the SQL ORDER BY). -/
def getAllTemplates (tbl : TemplateTable) : List TemplateRow :=
  tbl.rows.foldr insertOrdered []

/-- TemplateService.getDefaultTemplate: the row WHERE is_default = 1, or —
when no default exists — the first row of getAllTemplates, or none when the
store is empty. -/
def getDefaultTemplate (tbl : TemplateTable) : Option TemplateRow :=
  match tbl.rows.find? (fun r => r.is_default) with
  | some row => some row
  | none => (getAllTemplates tbl).head?

/-- TemplateService.updateTemplate: NotFound when the id does not resolve;
BadRequest when neither field is supplied; when isDefault is set to true the
previous default is cleared first; then the fields of the named row are updated. -/
def updateTemplate (tbl : TemplateTable) (id : Nat)
    (newName : Option String) (newIsDefault : Option Bool) :
    Except ApiError TemplateTable :=
  match getTemplate tbl id with
  | none => .error (Errors.NotFound "Template")
  | some _ =>
    if newName.isNone && newIsDefault.isNone then
      .error (Errors.BadRequest "No fields to update")
    else
      let rows1 := if newIsDefault = some true then clearDefaults tbl.rows else tbl.rows
      let rows2 := rows1.map (fun r =>
        if r.id = id then
          { r with name := newName.getD r.name,
                   is_default := newIsDefault.getD r.is_default }
        else r)
      .ok ⟨rows2, tbl.nextId⟩

/-- TemplateService.setAsDefault: updateTemplate with isDefault true. -/
def setAsDefault (tbl : TemplateTable) (id : Nat) : Except ApiError TemplateTable :=
  updateTemplate tbl id none (some true)

/-- TemplateService.deleteTemplate: NotFound when the id does not resolve,
otherwise the row is removed (the backing file removal has no store effect). -/
def deleteTemplate (tbl : TemplateTable) (id : Nat) : Except ApiError TemplateTable :=
  match getTemplate tbl id with
  | none => .error (Errors.NotFound "Template")
  | some _ => .ok ⟨tbl.rows.filter (fun r => r.id ≠ id), tbl.nextId⟩

end TemplateService

/-- The invariant of the templates table: at most one row has the default
flag set (enforced in the schema by idx_default_template). -/
def atMostOneDefault (tbl : TemplateTable) : Prop :=
  (tbl.rows.filter (fun r => r.is_default)).length ≤ 1

/-! ## Ticket cache (src/unnamed/part_010, JiraTicketService) -/

/-- An attachment of a JIRA ticket. -/
structure Attachment where
  filename : String
  contentType : String
  size : Nat
  url : String
deriving DecidableEq

/-- JiraTicketResponse: the normalized ticket shape used by the pipeline. -/
structure JiraTicketResponse where
  key : String
  summary : String
  description : String
  priority : String
  status : String
  assignee : String
  labels : List String
  acceptanceCriteria : String
  attachments : List Attachment
deriving DecidableEq

/-- A row of the jira_tickets table.  The JSON-serialized columns (labels,
attachments, raw_data) are stored as the serialized values themselves, the
JSON encoding being injective. -/
structure JiraTicketRow where
  id : Nat
  ticket_key : String
  summary : String
  description : String
  priority : String
  status : String
  assignee : String
  labels : List String
  acceptance_criteria : String
  attachments : List Attachment
  raw_data : JiraTicketResponse
  fetched_at : Nat
deriving DecidableEq

/-- The jira_tickets table: rows in rowid order plus the next AUTOINCREMENT
id. -/
structure TicketTable where
  rows : List JiraTicketRow
  nextId : Nat
deriving DecidableEq

namespace JiraTicketService

/-- The row an INSERT of this ticket would create (fetched_at is
CURRENT_TIMESTAMP, passed as now). -/
def ticketRow (id : Nat) (t : JiraTicketResponse) (now : Nat) : JiraTicketRow :=
  ⟨id, t.key, t.summary, t.description, t.priority, t.status, t.assignee,
   t.labels, t.acceptanceCriteria, t.attachments, t, now⟩

/-- JiraTicketService.saveTicket: INSERT INTO jira_tickets ... ON
CONFLICT(ticket_key) DO UPDATE SET every mutable column and fetched_at =
CURRENT_TIMESTAMP.  When a row with the same ticket_key exists it is updated
in place (id kept), otherwise a fresh row is appended. -/
def saveTicket (tbl : TicketTable) (t : JiraTicketResponse) (now : Nat) : TicketTable :=
  if tbl.rows.any (fun r => r.ticket_key = t.key) then
    ⟨tbl.rows.map (fun r =>
      if r.ticket_key = t.key then ticketRow r.id t now else r), tbl.nextId⟩
  else
    ⟨tbl.rows ++ [ticketRow tbl.nextId t now], tbl.nextId + 1⟩

/-- rowToResponse (JiraTicketService): project a cached row back to the
normalized ticket shape. -/
def rowToResponse (r : JiraTicketRow) : JiraTicketResponse :=
  ⟨r.ticket_key, r.summary, r.description, r.priority, r.status, r.assignee,
   r.labels, r.acceptance_criteria, r.attachments⟩

/-- JiraTicketService.getTicket: SELECT * FROM jira_tickets WHERE
ticket_key = ?. -/
def getTicket (tbl : TicketTable) (ticketKey : String) : Option JiraTicketResponse :=
  (tbl.rows.find? (fun r => r.ticket_key = ticketKey)).map rowToResponse

end JiraTicketService

/-! ## Orchestrator (src/unnamed/part_005, TestPlanService) -/

/-- A row of the test_plan_history table as written by saveToHistory. -/
structure HistoryRow where
  ticket_key : String
  ticket_id : Option Nat
  template_id : Nat
  llm_provider : String
  generated_content : String
deriving DecidableEq

/-- The full outcome of consuming TestPlanService.generate: the events it
yielded in order, the exception that escaped it (none when the generator
finished normally), and the history rows it inserted. -/
structure GenerateResult where
  events : List Event
  thrown : Option Thrown
  history : List HistoryRow
deriving DecidableEq

namespace TestPlanService

/-- The template projection generate works with: id, content and name. -/
structure ResolvedTemplate where
  id : Nat
  content : String
  name : String
deriving DecidableEq

/-- TestPlanService.getTicket: cache lookup first; on a miss, require JIRA to
be configured (else BadRequest), then fetch from JIRA (which returns a ticket
or throws — outcome supplied as fetchResult) and upsert it into the cache.
Returns the ticket together with the possibly-updated cache. -/
def getTicketStep (cache : TicketTable) (jiraConfigured : Bool)
    (fetchResult : Except Thrown JiraTicketResponse) (ticketId : String)
    (now : Nat) : Except Thrown (JiraTicketResponse × TicketTable) :=
  match JiraTicketService.getTicket cache ticketId with
  | some t => .ok (t, cache)
  | none =>
    if !jiraConfigured then
      .error (.api (Errors.BadRequest
        "Ticket not in cache and JIRA not configured. Please configure JIRA settings first."))
    else
      match fetchResult with
      | .error e => .error e
      | .ok t => .ok (t, JiraTicketService.saveTicket cache t now)

/-- TestPlanService.getTemplate: when a (truthy) template id was supplied,
look it up; when that yields nothing fall back to the default of the store;
NotFound when neither resolves. -/
def getTemplate (tbl : TemplateTable) (templateId : Option Nat) :
    Except ApiError ResolvedTemplate :=
  let fromId : Option TemplateRow :=
    match templateId with
    | some tid => if tid ≠ 0 then TemplateService.getTemplate tbl tid else none
    | none => none
  let chosen : Option TemplateRow :=
    match fromId with
    | some t => some t
    | none => TemplateService.getDefaultTemplate tbl
  match chosen with
  | some t => .ok ⟨t.id, t.content, t.name⟩
  | none => .error (Errors.NotFound "Template")

/-- The ticket-id lookup of saveToHistory: SELECT id FROM jira_tickets WHERE
ticket_key = ?, with a falsy id becoming NULL ("ticketRow id or null"). -/
def historyTicketId (cache : TicketTable) (ticketKey : String) : Option Nat :=
  match cache.rows.find? (fun r => r.ticket_key = ticketKey) with
  | some r => if r.id = 0 then none else some r.id
  | none => none

/-- TestPlanService.saveToHistory: resolves the rowid of the cached ticket
(a falsy id becomes NULL), then INSERTs one history row.  A database failure
is caught and swallowed, leaving the table unchanged — the saveFails flag
selects that environment.  Returns the rows written. -/
def saveToHistory (cache : TicketTable) (ticketKey : String) (templateId : Nat)
    (provider : ProviderName) (content : String) (saveFails : Bool) : List HistoryRow :=
  if saveFails then []
  else
    [⟨ticketKey, historyTicketId cache ticketKey, templateId, provider.name, content⟩]

/-- The catch block of generate: an Error carrying a status (an ApiError) is
rethrown; any other thrown value becomes a terminal error event whose data is
the error message or the fallback string. -/
def finishCatch (events : List Event) (t : Thrown) : GenerateResult :=
  if t.isApi then ⟨events, some t, []⟩
  else ⟨events ++ [⟨.error, t.messageOr "Generation failed", none⟩], none, []⟩

/-- The content accumulator: fullContent starts empty and each content event
appends its data ("fullContent += event.data"). -/
def accumulate (events : List Event) : String :=
  events.foldl (fun acc e => if e.type = .content then acc ++ e.data else acc) ""

/-- TestPlanService.generate, modelled over its resolved environment: the
ticket cache, whether JIRA is configured, the outcome of a JIRA fetch were
one needed, the template store, and the outcome of fully consuming the
selected provider stream (its events are forwarded unchanged, one by one,
with content data accumulated; an exception from the provider reaches the
catch block after the already-yielded events were forwarded).  After the
stream, when the accumulator is non-empty, a progress event is emitted and
one history row written (best-effort); finally the orchestrator emits its
own complete event carrying the accumulated text. -/
def generate (ticketId : String) (templateId : Option Nat) (provider : ProviderName)
    (cache : TicketTable) (templates : TemplateTable) (jiraConfigured : Bool)
    (fetchResult : Except Thrown JiraTicketResponse) (stream : StreamOutcome)
    (saveFails : Bool) (now : Nat) : GenerateResult :=
  let ev1 : List Event := [⟨.progress, "Fetching JIRA ticket...", some 5⟩]
  match getTicketStep cache jiraConfigured fetchResult ticketId now with
  | .error t => finishCatch ev1 t
  | .ok (ticket, cache') =>
    let ev2 := ev1 ++
      [⟨.progress, "Ticket found: " ++ ticket.summary, some 15⟩,
       ⟨.progress, "Loading template...", some 20⟩]
    match getTemplate templates templateId with
    | .error e => finishCatch ev2 (.api e)
    | .ok tmpl =>
      let ev3 := ev2 ++
        [⟨.progress, "Template loaded", some 25⟩,
         ⟨.progress, "Generating with " ++ provider.name ++ "...", some 30⟩]
      match stream.thrown with
      | some t => finishCatch (ev3 ++ stream.events) t
      | none =>
        let fullContent := accumulate stream.events
        if fullContent = "" then
          ⟨ev3 ++ stream.events ++ [⟨.complete, fullContent, some 100⟩], none, []⟩
        else
          ⟨ev3 ++ stream.events ++
            [⟨.progress, "Saving to history...", some 95⟩,
             ⟨.complete, fullContent, some 100⟩], none,
           saveToHistory cache' ticket.key tmpl.id provider fullContent saveFails⟩

end TestPlanService

/-! ## Groq provider (src/unnamed/part_006, GroqProvider) -/

/-- Substring prelude check over character lists. -/
def leadsWith : List Char → List Char → Bool
  | [], _ => true
  | _ :: _, [] => false
  | p :: ps, c :: cs => p = c && leadsWith ps cs

/-- Substring containment over character lists, modelling
String.prototype.includes. -/
def hasSubstr (pat : List Char) : List Char → Bool
  | [] => leadsWith pat []
  | c :: cs => leadsWith pat (c :: cs) || hasSubstr pat cs

/-- A value caught inside a Groq provider call, as GroqProvider.handleError
discriminates it: a Groq.APIError with its HTTP status, a plain Error, or a
non-Error value. -/
inductive GroqCaught where
  | apiStatus (status : Nat) (msg : String)
  | err (msg : String)
  | nonError
deriving DecidableEq

/-- GroqProvider.handleError: 401 becomes Unauthorized, 429 TooManyRequests,
5xx and other API statuses BadGateway; an Error whose message includes
"timeout" becomes BadGateway; anything else is not rethrown (the function
returns). -/
def groqHandleError : GroqCaught → Option ApiError
  | .apiStatus status msg =>
    if status = 401 then some (Errors.Unauthorized "Invalid Groq API key")
    else if status = 429 then
      some (Errors.TooManyRequests "Groq rate limit exceeded. Please try again later.")
    else if status ≥ 500 then
      some (Errors.BadGateway "Groq service error. Please try again later.")
    else some (Errors.BadGateway msg)
  | .err msg =>
    if hasSubstr "timeout".toList msg.toList then
      some (Errors.BadGateway "Request to Groq timed out")
    else none
  | .nonError => none

/-- The message of a caught Groq value:
the message when the caught value is an Error, otherwise the fixed unknown-error string. -/
def GroqCaught.message : GroqCaught → String
  | .apiStatus _ msg => msg
  | .err msg => msg
  | .nonError => "Unknown error"

/-- The catch block of GroqProvider.generateTestPlan: handleError either
rethrows a classified ApiError (which escapes the generator) or returns, in
which case a terminal error event is yielded. -/
def groqCatch (events : List Event) (c : GroqCaught) : StreamOutcome :=
  match groqHandleError c with
  | some api => ⟨events, some (.api api)⟩
  | none => ⟨events ++ [⟨.error, c.message, none⟩], none⟩

/-- JavaScript Math.min on the exact rationals standing for its floats. -/
def jsMin (a b : ℚ) : ℚ :=
  if a ≤ b then a else b

/-- The streaming loop of GroqProvider.generateTestPlan over the extracted
chunk contents ("chunk.choices[0]?.delta?.content || empty"): empty contents
are skipped; each non-empty content is appended to fullContent, counted, and
yielded as a content event — every 5th such chunk additionally carries the
advisory progress estimate.  Returns the yielded events and the final
fullContent. -/
def groqLoop : List String → String → Nat → List Event × String
  | [], acc, _ => ([], acc)
  | c :: cs, acc, count =>
    if c = "" then groqLoop cs acc count
    else
      let acc' := acc ++ c
      let count' := count + 1
      let ev : Event :=
        if count' % 5 = 0 then
          ⟨.content, c, some (jsMin (10 + (acc'.length : ℚ) / 100) 90)⟩
        else ⟨.content, c, none⟩
      let rest := groqLoop cs acc' count'
      (ev :: rest.1, rest.2)

/-- GroqProvider.generateTestPlan over its upstream environment: a progress
event first; then the chat-completions call, which either throws
(createThrown) or yields the chunk stream; then the streamed chunks, the
stream itself possibly ending in a thrown error (streamThrown); on normal
completion a final complete event carrying the fullContent of the provider itself. -/
def groqGenerate (createThrown : Option GroqCaught) (chunks : List String)
    (streamThrown : Option GroqCaught) : StreamOutcome :=
  let ev0 : List Event := [⟨.progress, "Generating test plan with Groq...", some 10⟩]
  match createThrown with
  | some c => groqCatch ev0 c
  | none =>
    let run := groqLoop chunks "" 0
    match streamThrown with
    | some c => groqCatch (ev0 ++ run.1) c
    | none => ⟨ev0 ++ run.1 ++ [⟨.complete, run.2, some 100⟩], none⟩

/-! ## Ollama provider (src/unnamed/part_006, OllamaProvider) -/

/-- One parsed line of the newline-delimited JSON stream
(OllamaGenerateResponse): the incremental text and the completion flag. -/
structure OllamaResp where
  response : String
  done : Bool
deriving DecidableEq

/-- Split a character buffer at every newline, like
String.prototype.split applied to a line buffer: the final component is the
(possibly empty) trailing incomplete line. -/
def splitNl : List Char → List (List Char)
  | [] => [[]]
  | c :: cs =>
    let rest := splitNl cs
    if c = '\n' then [] :: rest
    else
      match rest with
      | [] => [[c]]
      | l :: ls => (c :: l) :: ls

/-- A line is skipped when its trim is empty ("if line has no non-blank
character, continue"). -/
def isBlankLine (l : List Char) : Bool :=
  l.all (fun c => c.isWhitespace)

/-- The per-line loop of OllamaProvider.generateTestPlan: blank lines and
lines the JSON parser rejects are skipped; a fragment with non-empty
response is appended to fullContent and yielded as a content event (progress
100 on the done fragment, otherwise the advisory estimate); the first done
fragment additionally yields the complete event and returns, which stops all
further reading.  Returns (events, new fullContent, done flag). -/
def ollamaLines (parse : List Char → Option OllamaResp) :
    List (List Char) → String → List Event × String × Bool
  | [], acc => ([], acc, false)
  | line :: rest, acc =>
    if isBlankLine line then ollamaLines parse rest acc
    else
      match parse line with
      | none => ollamaLines parse rest acc
      | some d =>
        let step : List Event × String :=
          if d.response = "" then ([], acc)
          else
            let acc' := acc ++ d.response
            ([⟨.content, d.response,
               some (if d.done then 100
                     else jsMin (10 + (acc'.length : ℚ) / 100) 95)⟩], acc')
        if d.done then
          (step.1 ++ [⟨.complete, step.2, some 100⟩], step.2, true)
        else
          let next := ollamaLines parse rest step.2
          (step.1 ++ next.1, next.2.1, next.2.2)

/-- The per-chunk loop of OllamaProvider.generateTestPlan: each received
chunk is appended to the line buffer, which is split at newlines keeping the
trailing incomplete line; the complete lines are processed by ollamaLines;
once the done flag is seen no further chunk is read. -/
def ollamaChunks (parse : List Char → Option OllamaResp) :
    List (List Char) → List Char → String → List Event × String × Bool
  | [], _, acc => ([], acc, false)
  | chunk :: cs, buffer, acc =>
    let parts := splitNl (buffer ++ chunk)
    let buffer' := (parts.getLast?).getD []
    let lines := parts.dropLast
    let this := ollamaLines parse lines acc
    if this.2.2 then (this.1, this.2.1, true)
    else
      let next := ollamaChunks parse cs buffer' this.2.1
      (this.1 ++ next.1, next.2.1, next.2.2)

/-- OllamaProvider.generateTestPlan over the raw chunk stream of a successful
streaming request: a progress event first, then the chunk loop; when the
stream ends without a done fragment, a complete event carrying whatever text
was accumulated is still yielded.  The JSON parser is abstracted as parse
(returning none exactly on the lines JSON.parse rejects). -/
def ollamaGenerate (parse : List Char → Option OllamaResp)
    (chunks : List (List Char)) : StreamOutcome :=
  let ev0 : List Event := [⟨.progress, "Generating test plan with Ollama (local)...", some 10⟩]
  let run := ollamaChunks parse chunks [] ""
  if run.2.2 then ⟨ev0 ++ run.1, none⟩
  else ⟨ev0 ++ run.1 ++ [⟨.complete, run.2.1, some 100⟩], none⟩

/-! ## Helper lemmas -/

/-- Clearing every default leaves no row with the default flag. -/
theorem clearDefaults_filter_nil (rows : List TemplateRow) :
    (TemplateService.clearDefaults rows).filter (fun r => r.is_default) = [] := by
  induction rows with
  | nil => rfl
  | cons r rs ih => simp [TemplateService.clearDefaults, List.filter_cons, ih]

/-- A row-wise update that never turns the default flag on does not increase
the number of default rows. -/
theorem countDefaults_map_le (rows : List TemplateRow) (f : TemplateRow → TemplateRow)
    (hf : ∀ r, (f r).is_default = true → r.is_default = true) :
    (rows.map f).countP (fun r => r.is_default) ≤ rows.countP (fun r => r.is_default) := by
  rw [List.countP_map]
  induction rows with
  | nil => simp
  | cons r rs ih =>
    rw [List.countP_cons, List.countP_cons]
    by_cases h : (f r).is_default = true
    · simp only [Function.comp_apply, h, hf r h, if_true]
      omega
    · have hb : (f r).is_default = false := by
        cases hc : (f r).is_default
        · rfl
        · exact absurd hc h
      by_cases h2 : r.is_default = true <;>
        simp only [Function.comp_apply, hb, h2, Bool.false_eq_true, if_true, if_false] <;>
        omega

/-- A row-wise update that sets the default flag exactly on the rows with the
given id makes the default rows exactly the rows with that id. -/
theorem filter_defaults_set_ids (rows : List TemplateRow) (id : Nat)
    (f : TemplateRow → TemplateRow)
    (hid : ∀ r, (f r).id = r.id)
    (hdef : ∀ r, (f r).is_default = true ↔ r.id = id) :
    ((rows.map f).filter (fun r => r.is_default)).map (fun r => r.id)
      = (rows.filter (fun r => r.id = id)).map (fun r => r.id) := by
  induction rows with
  | nil => rfl
  | cons r rs ih =>
    simp only [List.map_cons, List.filter_cons]
    by_cases h : r.id = id
    · simp [(hdef r).mpr h, h, hid r, ih]
    · have h1 : ¬ ((f r).is_default = true) := fun hh => h ((hdef r).mp hh)
      simp [h1, h, ih]

/-- With pairwise distinct ids, filtering by an id that occurs yields exactly
that id. -/
theorem filter_id_unique (rows : List TemplateRow) (id : Nat)
    (hd : (rows.map (fun r => r.id)).Nodup)
    (hmem : ∃ r ∈ rows, r.id = id) :
    (rows.filter (fun r => r.id = id)).map (fun r => r.id) = [id] := by
  induction rows with
  | nil => simp at hmem
  | cons r rs ih =>
    simp only [List.map_cons, List.nodup_cons] at hd
    by_cases h : r.id = id
    · have hnone : rs.filter (fun x => x.id = id) = [] := by
        rw [List.filter_eq_nil_iff]
        intro x hx hxid
        apply hd.1
        have hxid2 : x.id = id := by simpa using hxid
        rw [h, ← hxid2]
        exact List.mem_map_of_mem (fun r => r.id) hx
      simp [List.filter_cons, h, hnone]
    · rcases hmem with ⟨x, hx, hxid⟩
      rcases List.mem_cons.mp hx with hxr | hxrs
      · exact absurd (hxr ▸ hxid) h
      · simp [List.filter_cons, h, ih hd.2 ⟨x, hxrs, hxid⟩]

/-- With pairwise distinct ids at most one row matches a given id. -/
theorem filter_id_le_one (rows : List TemplateRow) (id : Nat)
    (hd : (rows.map (fun r => r.id)).Nodup) :
    (rows.filter (fun r => r.id = id)).length ≤ 1 := by
  induction rows with
  | nil => simp
  | cons r rs ih =>
    simp only [List.map_cons, List.nodup_cons] at hd
    simp only [List.filter_cons]
    by_cases h : r.id = id
    · have hnone : rs.filter (fun x => x.id = id) = [] := by
        rw [List.filter_eq_nil_iff]
        intro x hx hxid
        apply hd.1
        have hxid2 : x.id = id := by simpa using hxid
        rw [h, ← hxid2]
        exact List.mem_map_of_mem (fun r => r.id) hx
      simp [h, hnone]
    · simpa [h] using ih hd.2

/-- Inversion of a successful updateTemplate: the id resolves, and the new
rows are the old ones (defaults first cleared when setting a default) with
the fields of the named row updated. -/
theorem updateTemplate_ok_rows (tbl : TemplateTable) (id : Nat)
    (nm : Option String) (d : Option Bool) (tbl2 : TemplateTable)
    (h : TemplateService.updateTemplate tbl id nm d = .ok tbl2) :
    (∃ r ∈ tbl.rows, r.id = id) ∧
    tbl2.rows = ((if d = some true then TemplateService.clearDefaults tbl.rows
                  else tbl.rows).map
      (fun r => if r.id = id then
          { r with name := nm.getD r.name, is_default := d.getD r.is_default }
        else r)) := by
  unfold TemplateService.updateTemplate at h
  cases hg : TemplateService.getTemplate tbl id with
  | none => rw [hg] at h; exact absurd h (by simp)
  | some t =>
    rw [hg] at h
    have hmem : t ∈ tbl.rows := List.mem_of_find?_eq_some hg
    have hid : t.id = id := by simpa using List.find?_some hg
    dsimp only [] at h
    by_cases hc : (nm.isNone && d.isNone) = true
    · rw [if_pos hc] at h
      exact absurd h (by simp)
    · rw [if_neg hc] at h
      simp only [Except.ok.injEq] at h
      refine ⟨⟨t, hmem, hid⟩, ?_⟩
      rw [← h]

/-- Length form of filter_defaults_set_ids. -/
theorem filter_defaults_set_length (rows : List TemplateRow) (id : Nat)
    (f : TemplateRow → TemplateRow)
    (hid : ∀ r, (f r).id = r.id)
    (hdef : ∀ r, (f r).is_default = true ↔ r.id = id) :
    ((rows.map f).filter (fun r => r.is_default)).length
      = (rows.filter (fun r => r.id = id)).length := by
  have hids := filter_defaults_set_ids rows id f hid hdef
  calc ((rows.map f).filter (fun r => r.is_default)).length
      = (((rows.map f).filter (fun r => r.is_default)).map (fun r => r.id)).length :=
        (List.length_map _ _).symm
    _ = ((rows.filter (fun r => r.id = id)).map (fun r => r.id)).length := by rw [hids]
    _ = (rows.filter (fun r => r.id = id)).length := List.length_map _ _

/-- C6: at most one template has the default flag at any time — the invariant
is preserved by template create, update, set-as-default and delete — and a
successful set-as-default on an existing template leaves exactly one default
template, the named one, every other default flag having been cleared in the
same operation. -/
theorem template_default_invariant_preserved (tbl : TemplateTable)
    (hinv : atMostOneDefault tbl)
    (hids : (tbl.rows.map (fun r => r.id)).Nodup) :
    (∀ nm fn fp c now, atMostOneDefault (TemplateService.createTemplate tbl nm fn fp c now).1) ∧
    (∀ id nm d tbl2, TemplateService.updateTemplate tbl id nm d = .ok tbl2 →
      atMostOneDefault tbl2) ∧
    (∀ id tbl2, TemplateService.deleteTemplate tbl id = .ok tbl2 →
      atMostOneDefault tbl2) ∧
    (∀ id tbl2, TemplateService.setAsDefault tbl id = .ok tbl2 →
      (tbl2.rows.filter (fun r => r.is_default)).map (fun r => r.id) = [id] ∧
      atMostOneDefault tbl2) := by
  have hupd : ∀ id nm d tbl2, TemplateService.updateTemplate tbl id nm d = .ok tbl2 →
      atMostOneDefault tbl2 := by
    intro id nm d tbl2 h
    obtain ⟨⟨r0, hr0, hr0id⟩, hrows⟩ := updateTemplate_ok_rows tbl id nm d tbl2 h
    unfold atMostOneDefault
    rcases d with _ | b
    · -- name-only update: the default flags are untouched
      have hrows2 : tbl2.rows = tbl.rows.map
          (fun r => if r.id = id then
            { r with name := nm.getD r.name, is_default := r.is_default } else r) := by
        simpa using hrows
      rw [hrows2, ← List.countP_eq_length_filter]
      refine le_trans (countDefaults_map_le _ _ ?_) ?_
      · intro r hr
        by_cases hrid : r.id = id <;> simpa [hrid] using hr
      · rw [List.countP_eq_length_filter]; exact hinv
    · cases b
      · -- clearing one default flag cannot increase the count
        have hrows2 : tbl2.rows = tbl.rows.map
            (fun r => if r.id = id then
              { r with name := nm.getD r.name, is_default := false } else r) := by
          simpa using hrows
        rw [hrows2, ← List.countP_eq_length_filter]
        refine le_trans (countDefaults_map_le _ _ ?_) ?_
        · intro r hr
          by_cases hrid : r.id = id
          · simp [hrid] at hr
          · simpa [hrid] using hr
        · rw [List.countP_eq_length_filter]; exact hinv
      · -- setting a default: only the rows carrying the named id stay default
        have hrows2 : tbl2.rows = tbl.rows.map
            ((fun r => if r.id = id then
              { r with name := nm.getD r.name, is_default := true } else r)
              ∘ (fun r => { r with is_default := false })) := by
          simpa [TemplateService.clearDefaults, List.map_map] using hrows
        rw [hrows2, filter_defaults_set_length tbl.rows id _
          (by intro r; by_cases hrid : r.id = id <;> simp [hrid])
          (by intro r; by_cases hrid : r.id = id <;> simp [hrid])]
        exact filter_id_le_one tbl.rows id hids
  refine ⟨?_, hupd, ?_, ?_⟩
  · -- createTemplate
    intro nm fn fp c now
    unfold TemplateService.createTemplate TemplateService.insertTemplate
    unfold atMostOneDefault at hinv ⊢
    cases hb : TemplateService.shouldBeDefault tbl
    · simpa [List.filter_append, List.filter_cons, hb] using hinv
    · simp [List.filter_append, List.filter_cons, hb, clearDefaults_filter_nil]
  · -- deleteTemplate
    intro id tbl2 h
    unfold TemplateService.deleteTemplate at h
    cases hg : TemplateService.getTemplate tbl id with
    | none => rw [hg] at h; exact absurd h (by simp)
    | some t =>
      rw [hg] at h
      simp only [Except.ok.injEq] at h
      unfold atMostOneDefault
      rw [← h]
      rw [← List.countP_eq_length_filter]
      refine le_trans ((List.filter_sublist tbl.rows).countP_le _) ?_
      rw [List.countP_eq_length_filter]
      exact hinv
  · -- setAsDefault: exactly the named template remains default
    intro id tbl2 h
    obtain ⟨⟨r0, hr0, hr0id⟩, hrows⟩ :=
      updateTemplate_ok_rows tbl id none (some true) tbl2 h
    constructor
    · have hrows2 : tbl2.rows = tbl.rows.map
          ((fun r => if r.id = id then { r with is_default := true } else r)
            ∘ (fun r => { r with is_default := false })) := by
        simpa [TemplateService.clearDefaults, List.map_map] using hrows
      rw [hrows2, filter_defaults_set_ids tbl.rows id _
        (by intro r; by_cases hrid : r.id = id <;> simp [hrid])
        (by intro r; by_cases hrid : r.id = id <;> simp [hrid])]
      exact filter_id_unique tbl.rows id hids ⟨r0, hr0, hr0id⟩
    · exact hupd id none (some true) tbl2 h

/-- Demonstration template store with one default template. -/
def demoTemplates : TemplateTable :=
  ⟨[⟨1, "A", "a.pdf", "/a", "AAA", true, 1⟩, ⟨2, "B", "b.pdf", "/b", "BBB", false, 2⟩], 3⟩

/-- The store demoTemplates after setting template 2 as the default. -/
def demoTemplatesAfter : TemplateTable :=
  ⟨[⟨1, "A", "a.pdf", "/a", "AAA", false, 1⟩, ⟨2, "B", "b.pdf", "/b", "BBB", true, 2⟩], 3⟩

/-- Witness for template_default_invariant_preserved at a concrete store:
setting template 2 as default really flips the default from template 1 to
template 2 and keeps the invariant. -/
theorem template_default_invariant_preserved_witness :
    atMostOneDefault demoTemplates ∧
    (demoTemplatesAfter.rows.filter (fun r => r.is_default)).map (fun r => r.id) = [2] ∧
    atMostOneDefault demoTemplatesAfter :=
  ⟨by unfold atMostOneDefault; decide,
    (template_default_invariant_preserved demoTemplates
      (by unfold atMostOneDefault; decide) (by decide)).2.2.2
      2 demoTemplatesAfter (by rfl)⟩

/-- C10: a freshly uploaded template is marked default exactly when the store
held zero templates at the moment of upload, and an upload never touches the
pre-existing rows — in particular later uploads never change the current
default. -/
theorem createTemplate_first_upload_default (tbl : TemplateTable)
    (nm fn fp c : String) (now : Nat) :
    TemplateService.createTemplate tbl nm fn fp c now =
      (⟨tbl.rows ++ [⟨tbl.nextId, nm, fn, fp, c, tbl.rows.isEmpty, now⟩],
        tbl.nextId + 1⟩, tbl.nextId) := by
  unfold TemplateService.createTemplate TemplateService.insertTemplate
    TemplateService.shouldBeDefault TemplateService.hasTemplates TemplateService.getCount
  cases htl : tbl.rows with
  | nil => simp [TemplateService.clearDefaults]
  | cons r rs => simp

/-- C7: saving a ticket whose key is already cached is an upsert: the row
count stays the same, every row keeps its id and key, the row carrying the
key gets all mutable fields and the fetch timestamp overwritten, and every
other row is untouched. -/
theorem saveTicket_upsert_existing (tbl : TicketTable) (t : JiraTicketResponse)
    (now : Nat) (h : tbl.rows.any (fun r => r.ticket_key = t.key) = true) :
    (JiraTicketService.saveTicket tbl t now).rows.length = tbl.rows.length ∧
    (JiraTicketService.saveTicket tbl t now).rows.map (fun r => (r.id, r.ticket_key))
      = tbl.rows.map (fun r => (r.id, r.ticket_key)) ∧
    (∀ r ∈ (JiraTicketService.saveTicket tbl t now).rows, r.ticket_key = t.key →
      r = JiraTicketService.ticketRow r.id t now) ∧
    (∀ r ∈ (JiraTicketService.saveTicket tbl t now).rows, r.ticket_key ≠ t.key →
      r ∈ tbl.rows) := by
  unfold JiraTicketService.saveTicket
  rw [if_pos h]
  refine ⟨List.length_map _ _, ?_, ?_, ?_⟩
  · rw [List.map_map]
    refine List.map_congr_left ?_
    intro r _
    by_cases hk : r.ticket_key = t.key
    · simp [hk, JiraTicketService.ticketRow]
    · simp [hk]
  · intro r hr hkey
    rcases List.mem_map.mp hr with ⟨r0, hr0, hmap⟩
    by_cases hk : r0.ticket_key = t.key
    · rw [if_pos hk] at hmap
      rw [← hmap]
      rfl
    · rw [if_neg hk] at hmap
      exact absurd (hmap ▸ hkey) hk
  · intro r hr hkey
    rcases List.mem_map.mp hr with ⟨r0, hr0, hmap⟩
    by_cases hk : r0.ticket_key = t.key
    · rw [if_pos hk] at hmap
      exact absurd (show r.ticket_key = t.key by rw [← hmap]; rfl) hkey
    · rw [if_neg hk] at hmap
      exact hmap ▸ hr0

/-- Demonstration cached ticket (old values). -/
def demoCachedTicket : JiraTicketResponse :=
  ⟨"ABC-1", "Old summary", "Old desc", "Low", "Open", "alice", ["x"], "old AC", []⟩

/-- Demonstration re-fetched ticket with the same key and new values. -/
def demoRefreshedTicket : JiraTicketResponse :=
  ⟨"ABC-1", "New summary", "New desc", "High", "Done", "bob", ["y"], "new AC", []⟩

/-- Demonstration ticket cache holding the old ticket. -/
def demoTicketCache : TicketTable :=
  ⟨[JiraTicketService.ticketRow 1 demoCachedTicket 5], 2⟩

/-- Witness for saveTicket_upsert_existing at a concrete cache. -/
theorem saveTicket_upsert_existing_witness :
    (demoTicketCache.rows.any (fun r => r.ticket_key = demoRefreshedTicket.key)) = true ∧
    (JiraTicketService.saveTicket demoTicketCache demoRefreshedTicket 9).rows.length
      = demoTicketCache.rows.length :=
  ⟨by decide,
    (saveTicket_upsert_existing demoTicketCache demoRefreshedTicket 9 (by decide)).1⟩

/-! ## Shape of a generate run -/

/-- The three progress events emitted before template resolution. -/
def ticketEvents (summary : String) : List Event :=
  [⟨.progress, "Fetching JIRA ticket...", some 5⟩,
   ⟨.progress, "Ticket found: " ++ summary, some 15⟩,
   ⟨.progress, "Loading template...", some 20⟩]

/-- The five progress events emitted before the provider stream starts. -/
def resolveEvents (summary : String) (provider : ProviderName) : List Event :=
  [⟨.progress, "Fetching JIRA ticket...", some 5⟩,
   ⟨.progress, "Ticket found: " ++ summary, some 15⟩,
   ⟨.progress, "Loading template...", some 20⟩,
   ⟨.progress, "Template loaded", some 25⟩,
   ⟨.progress, "Generating with " ++ provider.name ++ "...", some 30⟩]

/-- Exhaustive characterization of a generate run, one disjunct per control
path of the orchestrator: ticket-resolution failure, template-resolution
failure, provider exception, empty accumulator, and the full success path. -/
theorem generate_shape (tid : String) (tmplId : Option Nat) (provider : ProviderName)
    (cache : TicketTable) (templates : TemplateTable) (jc : Bool)
    (fr : Except Thrown JiraTicketResponse) (stream : StreamOutcome)
    (sf : Bool) (now : Nat) :
    (∃ t, TestPlanService.getTicketStep cache jc fr tid now = .error t ∧
      TestPlanService.generate tid tmplId provider cache templates jc fr stream sf now
        = TestPlanService.finishCatch [⟨.progress, "Fetching JIRA ticket...", some 5⟩] t) ∨
    (∃ ticket cache', TestPlanService.getTicketStep cache jc fr tid now = .ok (ticket, cache') ∧
      ((∃ e, TestPlanService.getTemplate templates tmplId = .error e ∧
        TestPlanService.generate tid tmplId provider cache templates jc fr stream sf now
          = TestPlanService.finishCatch (ticketEvents ticket.summary) (.api e)) ∨
       (∃ tmpl, TestPlanService.getTemplate templates tmplId = .ok tmpl ∧
        ((∃ t, stream.thrown = some t ∧
          TestPlanService.generate tid tmplId provider cache templates jc fr stream sf now
            = TestPlanService.finishCatch
                (resolveEvents ticket.summary provider ++ stream.events) t) ∨
         (stream.thrown = none ∧ TestPlanService.accumulate stream.events = "" ∧
          TestPlanService.generate tid tmplId provider cache templates jc fr stream sf now
            = ⟨resolveEvents ticket.summary provider ++ stream.events
                ++ [⟨.complete, TestPlanService.accumulate stream.events, some 100⟩],
               none, []⟩) ∨
         (stream.thrown = none ∧ TestPlanService.accumulate stream.events ≠ "" ∧
          TestPlanService.generate tid tmplId provider cache templates jc fr stream sf now
            = ⟨resolveEvents ticket.summary provider ++ stream.events
                ++ [⟨.progress, "Saving to history...", some 95⟩,
                    ⟨.complete, TestPlanService.accumulate stream.events, some 100⟩],
               none,
               TestPlanService.saveToHistory cache' ticket.key tmpl.id provider
                 (TestPlanService.accumulate stream.events) sf⟩))))) := by
  unfold TestPlanService.generate
  cases hts : TestPlanService.getTicketStep cache jc fr tid now with
  | error t =>
    left
    exact ⟨t, rfl, rfl⟩
  | ok pair =>
    obtain ⟨ticket, cache'⟩ := pair
    right
    refine ⟨ticket, cache', rfl, ?_⟩
    cases htm : TestPlanService.getTemplate templates tmplId with
    | error e =>
      left
      exact ⟨e, rfl, rfl⟩
    | ok tmpl =>
      right
      refine ⟨tmpl, rfl, ?_⟩
      cases hst : stream.thrown with
      | some t =>
        left
        exact ⟨t, rfl, rfl⟩
      | none =>
        right
        dsimp only []
        by_cases hfc : TestPlanService.accumulate stream.events = ""
        · left
          refine ⟨rfl, hfc, ?_⟩
          rw [if_pos hfc]
          rfl
        · right
          refine ⟨rfl, hfc, ?_⟩
          rw [if_neg hfc]
          rfl

/-- A non-rethrowing catch appends exactly one terminal error event. -/
theorem finishCatch_thrown_none (evs : List Event) (t : Thrown)
    (h : (TestPlanService.finishCatch evs t).thrown = none) :
    TestPlanService.finishCatch evs t
      = ⟨evs ++ [⟨.error, t.messageOr "Generation failed", none⟩], none, []⟩ := by
  unfold TestPlanService.finishCatch at h ⊢
  cases hb : t.isApi
  · simp
  · rw [hb] at h
    simp at h

/-- A catch never adds history rows. -/
theorem finishCatch_history (evs : List Event) (t : Thrown) :
    (TestPlanService.finishCatch evs t).history = [] := by
  unfold TestPlanService.finishCatch
  cases hb : t.isApi <;> simp [hb]

/-- The last element of a list extended by two elements. -/
theorem getLast?_append_pair (l : List Event) (a b : Event) :
    (l ++ [a, b]).getLast? = some b := by
  rw [show l ++ [a, b] = (l ++ [a]) ++ [b] by simp, List.getLast?_concat]

/-! ## C1: terminal events of a generate run -/

/-- An event of a terminal kind (complete or error). -/
def isTerminal (e : Event) : Bool :=
  e.type = .complete || e.type = .error

/-- How many terminal-typed events a run emits. -/
def terminalCount (events : List Event) : Nat :=
  events.countP (fun e => isTerminal e)

/-- C1 as stated: the run emits exactly one terminal-typed event and it is
the final event (so nothing of any kind follows it). -/
def singleTerminalRun (res : GenerateResult) : Prop :=
  terminalCount res.events = 1 ∧ Option.any isTerminal res.events.getLast? = true

/-- A ticket as the pipeline sees it. -/
def sampleTicket : JiraTicketResponse :=
  ⟨"ABC-1", "Sum", "Desc", "High", "Open", "me", [], "AC", []⟩

/-- A ticket cache holding sampleTicket. -/
def sampleCache : TicketTable :=
  ⟨[JiraTicketService.ticketRow 1 sampleTicket 5], 2⟩

/-- A template store whose only template is the default. -/
def sampleTemplates : TemplateTable :=
  ⟨[⟨1, "T", "t.pdf", "/t", "TPL", true, 3⟩], 2⟩

/-- A provider stream that emits one content fragment and its own complete
event, then finishes normally. -/
def sampleStream : StreamOutcome :=
  ⟨[⟨.content, "a", none⟩, ⟨.complete, "a", some 100⟩], none⟩

/-- C1 counterexample: on a perfectly ordinary successful run the complete event of the provider itself
is forwarded, then a progress event and a second complete from the
orchestrator follow it — two terminal-typed events, with events after the
first one, refuting "exactly one terminal event and no event after it". -/
theorem generate_single_terminal_refuted :
    ¬ singleTerminalRun (TestPlanService.generate "ABC-1" (some 1) .groq sampleCache
        sampleTemplates true (.error .nonError) sampleStream false 9) := by
  unfold singleTerminalRun terminalCount
  decide

/-- C1 (amended): whenever generate finishes without rethrowing an ApiError,
its final event is of a terminal kind (complete or error) and no event
follows it; terminal-typed events forwarded from the provider may however
occur earlier in the sequence with further events after them, and a run whose
provider throws an ApiError ends in that exception with no terminal event. -/
theorem generate_last_event_terminal (tid : String) (tmplId : Option Nat)
    (provider : ProviderName) (cache : TicketTable) (templates : TemplateTable)
    (jc : Bool) (fr : Except Thrown JiraTicketResponse) (stream : StreamOutcome)
    (sf : Bool) (now : Nat)
    (h : (TestPlanService.generate tid tmplId provider cache templates jc fr
            stream sf now).thrown = none) :
    Option.any isTerminal
      (TestPlanService.generate tid tmplId provider cache templates jc fr
        stream sf now).events.getLast? = true := by
  rcases generate_shape tid tmplId provider cache templates jc fr stream sf now with
    ⟨t, hts, heq⟩ |
    ⟨ticket, cache', hts, ⟨e, htm, heq⟩ |
      ⟨tmpl, htm, ⟨t, hst, heq⟩ | ⟨hst, hfc, heq⟩ | ⟨hst, hfc, heq⟩⟩⟩
  · rw [heq] at h ⊢
    rw [finishCatch_thrown_none _ _ h]
    simp [List.getLast?_concat, isTerminal]
  · rw [heq] at h ⊢
    rw [finishCatch_thrown_none _ _ h]
    simp [List.getLast?_concat, isTerminal]
  · rw [heq] at h ⊢
    rw [finishCatch_thrown_none _ _ h]
    simp [List.getLast?_concat, isTerminal]
  · rw [heq]
    simp [List.getLast?_concat, isTerminal]
  · rw [heq]
    simp [getLast?_append_pair, isTerminal]

/-- Witness for generate_last_event_terminal on a concrete successful run. -/
theorem generate_last_event_terminal_witness :
    (TestPlanService.generate "ABC-1" (some 1) .groq sampleCache sampleTemplates
      true (.error .nonError) sampleStream false 9).thrown = none ∧
    Option.any isTerminal
      (TestPlanService.generate "ABC-1" (some 1) .groq sampleCache sampleTemplates
        true (.error .nonError) sampleStream false 9).events.getLast? = true :=
  ⟨by decide,
   generate_last_event_terminal "ABC-1" (some 1) .groq sampleCache sampleTemplates
     true (.error .nonError) sampleStream false 9 (by decide)⟩

/-! ## C2: data carried by the final complete event -/

/-- The payload of the last complete event of the provider itself, if any. -/
def providerFinalPayload (stream : StreamOutcome) : Option String :=
  (stream.events.reverse.find? (fun e => e.type = .complete)).map (fun e => e.data)

/-- C2 as stated: the data of the final complete event is the concatenation of the
preceding content fragments, except that with zero content events it falls
back to the final complete payload of the provider itself. -/
def completeDataClaim (stream : StreamOutcome) (res : GenerateResult) : Bool :=
  match res.events.getLast? with
  | some e =>
    if e.type = .complete then
      if res.events.dropLast.countP (fun x => x.type = .content) = 0 then
        decide (providerFinalPayload stream = some e.data)
      else decide (e.data = TestPlanService.accumulate res.events.dropLast)
    else true
  | none => true

/-- A provider stream that only emits a final blob in its complete event,
with no intermediate content events. -/
def blobStream : StreamOutcome :=
  ⟨[⟨.complete, "xyz", some 100⟩], none⟩

/-- C2 counterexample: with a provider that emits no content events and a
final complete payload "xyz", the final complete event of the orchestrator
carries the empty accumulator, not the payload of the provider — there is no fallback. -/
theorem generate_complete_fallback_refuted :
    completeDataClaim blobStream
      (TestPlanService.generate "ABC-1" (some 1) .groq sampleCache sampleTemplates
        true (.error .nonError) blobStream false 9) = false := by
  decide

/-- C2 (amended): for every run that terminates without a rethrown exception,
the data of the final complete event always equals the concatenation of the
content fragments of the provider stream — the empty string when there were none;
the complete payload of the provider itself is never consulted — and the content
events of the run are exactly those of the provider stream. -/
theorem generate_accumulator_sole_source (tid : String) (tmplId : Option Nat)
    (provider : ProviderName) (cache : TicketTable) (templates : TemplateTable)
    (jc : Bool) (fr : Except Thrown JiraTicketResponse) (stream : StreamOutcome)
    (sf : Bool) (now : Nat)
    (h : (TestPlanService.generate tid tmplId provider cache templates jc fr
            stream sf now).thrown = none) :
    ∀ e, (TestPlanService.generate tid tmplId provider cache templates jc fr
            stream sf now).events.getLast? = some e →
      e.type = .complete →
      e.data = TestPlanService.accumulate stream.events ∧
      (TestPlanService.generate tid tmplId provider cache templates jc fr
        stream sf now).events.filter (fun x => x.type = .content)
        = stream.events.filter (fun x => x.type = .content) := by
  rcases generate_shape tid tmplId provider cache templates jc fr stream sf now with
    ⟨t, hts, heq⟩ |
    ⟨ticket, cache', hts, ⟨e0, htm, heq⟩ |
      ⟨tmpl, htm, ⟨t, hst, heq⟩ | ⟨hst, hfc, heq⟩ | ⟨hst, hfc, heq⟩⟩⟩
  · rw [heq] at h ⊢
    rw [finishCatch_thrown_none _ _ h]
    intro e he hc
    rw [List.getLast?_concat] at he
    cases he
    cases hc
  · rw [heq] at h ⊢
    rw [finishCatch_thrown_none _ _ h]
    intro e he hc
    rw [List.getLast?_concat] at he
    cases he
    cases hc
  · rw [heq] at h ⊢
    rw [finishCatch_thrown_none _ _ h]
    intro e he hc
    rw [List.getLast?_concat] at he
    cases he
    cases hc
  · rw [heq]
    intro e he hc
    rw [List.getLast?_concat] at he
    cases he
    refine ⟨rfl, ?_⟩
    simp [resolveEvents, List.filter_append, List.filter_cons]
  · rw [heq]
    intro e he hc
    rw [getLast?_append_pair] at he
    cases he
    refine ⟨rfl, ?_⟩
    simp [resolveEvents, List.filter_append, List.filter_cons]

/-- Witness for generate_accumulator_sole_source on a concrete run whose
final complete event carries the single accumulated fragment. -/
theorem generate_accumulator_sole_source_witness :
    (TestPlanService.generate "ABC-1" (some 1) .groq sampleCache sampleTemplates
      true (.error .nonError) sampleStream false 9).thrown = none ∧
    (⟨EventType.complete, "a", some 100⟩ : Event).data
        = TestPlanService.accumulate sampleStream.events ∧
    (TestPlanService.generate "ABC-1" (some 1) .groq sampleCache sampleTemplates
      true (.error .nonError) sampleStream false 9).events.filter
        (fun x => x.type = .content)
      = sampleStream.events.filter (fun x => x.type = .content) :=
  ⟨by decide,
   generate_accumulator_sole_source "ABC-1" (some 1) .groq sampleCache sampleTemplates
     true (.error .nonError) sampleStream false 9 (by decide)
     ⟨EventType.complete, "a", some 100⟩ (by decide) (by decide)⟩

/-! ## C3: history row iff complete with non-empty text -/

/-- C3 as stated: a history row is written iff the run reaches the complete
event with non-empty accumulated text, and then exactly one row whose
generated content equals the data of the complete event. -/
def historyWrittenClaim (res : GenerateResult) : Bool :=
  match res.events.getLast? with
  | some e =>
    if e.type = .complete ∧ e.data ≠ "" then
      decide (res.history.length = 1) &&
        res.history.all (fun r => r.generated_content = e.data)
    else res.history.isEmpty
  | none => res.history.isEmpty

/-- C3 counterexample: when the history INSERT fails, the run still reaches
its complete event with the non-empty accumulated text, yet no row is
written — the "if and only if" fails in that environment (see C4: the write
is best-effort by design). -/
theorem generate_history_iff_refuted :
    historyWrittenClaim
      (TestPlanService.generate "ABC-1" (some 1) .groq sampleCache sampleTemplates
        true (.error .nonError) sampleStream true 9) = false := by
  decide

/-- The catch paths of generate write no history and end in no complete
event, so the history biconditional holds vacuously on them. -/
theorem history_claim_catch (evs : List Event) (t : Thrown) (P : Event → Prop) :
    ((TestPlanService.finishCatch evs t).history ≠ [] ↔
      ((TestPlanService.finishCatch evs t).thrown = none ∧
       ∃ e, (TestPlanService.finishCatch evs t).events.getLast? = some e ∧
         e.type = .complete ∧ e.data ≠ "")) ∧
    (∀ e, (TestPlanService.finishCatch evs t).thrown = none →
      (TestPlanService.finishCatch evs t).events.getLast? = some e →
      e.type = .complete → e.data ≠ "" → P e) := by
  constructor
  · constructor
    · intro habs
      exact absurd (finishCatch_history evs t) habs
    · rintro ⟨hthr, e, hlast, htype, -⟩
      rw [finishCatch_thrown_none _ _ hthr] at hlast
      simp only [List.getLast?_concat, Option.some.injEq] at hlast
      rw [← hlast] at htype
      cases htype
  · intro e hthr hlast htype hdata
    rw [finishCatch_thrown_none _ _ hthr] at hlast
    simp only [List.getLast?_concat, Option.some.injEq] at hlast
    rw [← hlast] at htype
    cases htype

/-- C3 (amended): provided the history INSERT does not fail (the failing case
is the best-effort contract of C4), a history row is written iff the run
terminates without a rethrown exception and its final event is complete with
non-empty data, and then exactly one row is written: ticket key, resolved
ticket rowid, resolved template id, provider name and the data of the complete
event. -/
theorem generate_history_iff_complete_nonempty (tid : String) (tmplId : Option Nat)
    (provider : ProviderName) (cache : TicketTable) (templates : TemplateTable)
    (jc : Bool) (fr : Except Thrown JiraTicketResponse) (stream : StreamOutcome)
    (now : Nat) :
    ((TestPlanService.generate tid tmplId provider cache templates jc fr
        stream false now).history ≠ [] ↔
      ((TestPlanService.generate tid tmplId provider cache templates jc fr
          stream false now).thrown = none ∧
       ∃ e, (TestPlanService.generate tid tmplId provider cache templates jc fr
          stream false now).events.getLast? = some e ∧
         e.type = .complete ∧ e.data ≠ "")) ∧
    (∀ e, (TestPlanService.generate tid tmplId provider cache templates jc fr
        stream false now).thrown = none →
      (TestPlanService.generate tid tmplId provider cache templates jc fr
        stream false now).events.getLast? = some e →
      e.type = .complete → e.data ≠ "" →
      ∃ ticket cache' tmpl,
        TestPlanService.getTicketStep cache jc fr tid now = .ok (ticket, cache') ∧
        TestPlanService.getTemplate templates tmplId = .ok tmpl ∧
        (TestPlanService.generate tid tmplId provider cache templates jc fr
          stream false now).history
          = [⟨ticket.key, TestPlanService.historyTicketId cache' ticket.key,
              tmpl.id, provider.name, e.data⟩]) := by
  rcases generate_shape tid tmplId provider cache templates jc fr stream false now with
    ⟨t, hts, heq⟩ | ⟨ticket, cache', hts, ⟨e0, htm, heq⟩ |
      ⟨tmpl, htm, ⟨t, hst, heq⟩ | ⟨hst, hfc, heq⟩ | ⟨hst, hfc, heq⟩⟩⟩
  · rw [heq]; exact history_claim_catch _ _ _
  · rw [heq]; exact history_claim_catch _ _ _
  · rw [heq]; exact history_claim_catch _ _ _
  · rw [heq]
    dsimp only []
    constructor
    · constructor
      · intro habs
        simp at habs
      · rintro ⟨-, e, hlast, -, hdata⟩
        rw [List.getLast?_concat] at hlast
        simp only [Option.some.injEq] at hlast
        rw [← hlast] at hdata
        exact absurd hfc hdata
    · intro e hthr hlast htype hdata
      rw [List.getLast?_concat] at hlast
      simp only [Option.some.injEq] at hlast
      rw [← hlast] at hdata
      exact absurd hfc hdata
  · rw [heq]
    dsimp only []
    constructor
    · constructor
      · intro _
        exact ⟨rfl, ⟨.complete, TestPlanService.accumulate stream.events, some 100⟩,
          getLast?_append_pair _ _ _, rfl, hfc⟩
      · intro _
        unfold TestPlanService.saveToHistory
        simp
    · intro e hthr hlast htype hdata
      rw [getLast?_append_pair] at hlast
      simp only [Option.some.injEq] at hlast
      refine ⟨ticket, cache', tmpl, hts, htm, ?_⟩
      rw [← hlast]
      unfold TestPlanService.saveToHistory
      simp

/-- Witness for generate_history_iff_complete_nonempty on a run that writes
one history row. -/
theorem generate_history_iff_complete_nonempty_witness :
    (TestPlanService.generate "ABC-1" (some 1) .groq sampleCache sampleTemplates
        true (.error .nonError) sampleStream false 9).thrown = none ∧
    (∃ ticket cache' tmpl,
      TestPlanService.getTicketStep sampleCache true (.error .nonError) "ABC-1" 9
        = .ok (ticket, cache') ∧
      TestPlanService.getTemplate sampleTemplates (some 1) = .ok tmpl ∧
      (TestPlanService.generate "ABC-1" (some 1) .groq sampleCache sampleTemplates
        true (.error .nonError) sampleStream false 9).history
        = [⟨ticket.key, TestPlanService.historyTicketId cache' ticket.key,
            tmpl.id, ProviderName.groq.name,
            (⟨EventType.complete, "a", some 100⟩ : Event).data⟩]) :=
  ⟨by decide,
   (generate_history_iff_complete_nonempty "ABC-1" (some 1) .groq sampleCache
      sampleTemplates true (.error .nonError) sampleStream 9).2
     ⟨EventType.complete, "a", some 100⟩ (by decide) (by decide) (by decide) (by decide)⟩

/-! ## C4: persistence failures are swallowed -/

/-- C4: a failing history write changes nothing the caller can observe — the
emitted events and the thrown outcome are identical to the successful-write
run — and a run that would have written a row still terminates with the
complete event carrying the full accumulated text and progress 100, with no
exception; only the history table is left without the row. -/
theorem generate_persistence_best_effort (tid : String) (tmplId : Option Nat)
    (provider : ProviderName) (cache : TicketTable) (templates : TemplateTable)
    (jc : Bool) (fr : Except Thrown JiraTicketResponse) (stream : StreamOutcome)
    (now : Nat) :
    (TestPlanService.generate tid tmplId provider cache templates jc fr
        stream true now).events
      = (TestPlanService.generate tid tmplId provider cache templates jc fr
        stream false now).events ∧
    (TestPlanService.generate tid tmplId provider cache templates jc fr
        stream true now).thrown
      = (TestPlanService.generate tid tmplId provider cache templates jc fr
        stream false now).thrown ∧
    ((TestPlanService.generate tid tmplId provider cache templates jc fr
        stream false now).history ≠ [] →
      (TestPlanService.generate tid tmplId provider cache templates jc fr
          stream true now).thrown = none ∧
      (TestPlanService.generate tid tmplId provider cache templates jc fr
          stream true now).history = [] ∧
      (TestPlanService.generate tid tmplId provider cache templates jc fr
          stream true now).events.getLast?
        = some ⟨.complete, TestPlanService.accumulate stream.events, some 100⟩) := by
  unfold TestPlanService.generate
  cases hts : TestPlanService.getTicketStep cache jc fr tid now with
  | error t =>
    exact ⟨rfl, rfl, fun habs => absurd (finishCatch_history _ _) habs⟩
  | ok pair =>
    obtain ⟨ticket, cache'⟩ := pair
    cases htm : TestPlanService.getTemplate templates tmplId with
    | error e =>
      exact ⟨rfl, rfl, fun habs => absurd (finishCatch_history _ _) habs⟩
    | ok tmpl =>
      cases hst : stream.thrown with
      | some t =>
        exact ⟨rfl, rfl, fun habs => absurd (finishCatch_history _ _) habs⟩
      | none =>
        dsimp only []
        by_cases hfc : TestPlanService.accumulate stream.events = ""
        · rw [if_pos hfc, if_pos hfc]
          exact ⟨rfl, rfl, fun habs => absurd rfl habs⟩
        · rw [if_neg hfc, if_neg hfc]
          refine ⟨rfl, rfl, fun _ => ⟨rfl, ?_, ?_⟩⟩
          · unfold TestPlanService.saveToHistory
            simp
          · exact getLast?_append_pair _ _ _

/-- Witness for generate_persistence_best_effort on a run that attempts the
write. -/
theorem generate_persistence_best_effort_witness :
    (TestPlanService.generate "ABC-1" (some 1) .groq sampleCache sampleTemplates
        true (.error .nonError) sampleStream false 9).history ≠ [] ∧
    ((TestPlanService.generate "ABC-1" (some 1) .groq sampleCache sampleTemplates
        true (.error .nonError) sampleStream true 9).thrown = none ∧
     (TestPlanService.generate "ABC-1" (some 1) .groq sampleCache sampleTemplates
        true (.error .nonError) sampleStream true 9).history = [] ∧
     (TestPlanService.generate "ABC-1" (some 1) .groq sampleCache sampleTemplates
        true (.error .nonError) sampleStream true 9).events.getLast?
       = some ⟨.complete, TestPlanService.accumulate sampleStream.events, some 100⟩) :=
  ⟨by decide,
   (generate_persistence_best_effort "ABC-1" (some 1) .groq sampleCache sampleTemplates
      true (.error .nonError) sampleStream 9).2.2 (by decide)⟩

/-! ## C5: missing template resolution -/

/-- Inserting into the ordered listing adds exactly one row. -/
theorem insertOrdered_length (r : TemplateRow) (l : List TemplateRow) :
    (TemplateService.insertOrdered r l).length = l.length + 1 := by
  induction l with
  | nil => rfl
  | cons x xs ih =>
    unfold TemplateService.insertOrdered
    cases h : TemplateService.templateBefore r x <;> simp [h, ih]

/-- The ordered listing keeps every row. -/
theorem foldr_insertOrdered_length (l : List TemplateRow) :
    (l.foldr TemplateService.insertOrdered []).length = l.length := by
  induction l with
  | nil => rfl
  | cons r rs ih => simp [List.foldr_cons, insertOrdered_length, ih]

/-- On a non-empty store with no default template, template resolution does
not fail: the first row of the ordered listing is substituted. -/
theorem getTemplate_default_fallback (tbl : TemplateTable) (h : tbl.rows ≠ []) :
    ∃ rt, TestPlanService.getTemplate tbl none = .ok rt := by
  unfold TestPlanService.getTemplate
  dsimp only []
  cases hd : TemplateService.getDefaultTemplate tbl with
  | some row => exact ⟨⟨row.id, row.content, row.name⟩, rfl⟩
  | none =>
    exfalso
    unfold TemplateService.getDefaultTemplate at hd
    cases hf : tbl.rows.find? (fun r => r.is_default) with
    | some row => rw [hf] at hd; cases hd
    | none =>
      rw [hf] at hd
      have hnil : TemplateService.getAllTemplates tbl = [] := by
        cases hq : TemplateService.getAllTemplates tbl with
        | nil => rfl
        | cons a as => rw [hq] at hd; cases hd
      have hlen : tbl.rows.length = 0 := by
        have h1 := foldr_insertOrdered_length tbl.rows
        unfold TemplateService.getAllTemplates at hnil
        rw [hnil] at h1
        exact h1.symm
      exact h (List.length_eq_zero.mp hlen)

/-- C5 as stated: the run terminates with the NotFound Template error and no
provider content event is ever emitted. -/
def notFoundBeforeProvider (res : GenerateResult) : Prop :=
  res.thrown = some (Thrown.api (Errors.NotFound "Template")) ∧
  res.events.countP (fun e => e.type = .content) = 0

/-- A non-empty template store in which no template is the default. -/
def noDefaultTemplates : TemplateTable :=
  ⟨[⟨1, "T", "t.pdf", "/t", "TPL", false, 3⟩], 2⟩

/-- C5 counterexample: with one template whose default flag is off and no
template id supplied, generate does not fail — getDefaultTemplate substitutes
the first row of the ordered listing and the provider is called (its content
is forwarded). -/
theorem generate_no_default_notfound_refuted :
    ¬ notFoundBeforeProvider
      (TestPlanService.generate "ABC-1" none .groq sampleCache noDefaultTemplates
        true (.error .nonError) sampleStream false 9) := by
  unfold notFoundBeforeProvider
  decide

/-- C5 (amended): only when the template store is EMPTY does an omitted
template id make the run terminate — with the NotFound Template ApiError
rethrown before any provider call (the outcome of the run does not depend on the
provider stream, and only the three resolution progress events are emitted);
when the store is non-empty but has no default, the first template of the
default-ordered listing is silently substituted and the run proceeds. -/
theorem generate_empty_store_notfound (tid : String) (provider : ProviderName)
    (cache : TicketTable) (templates : TemplateTable) (jc : Bool)
    (fr : Except Thrown JiraTicketResponse) (stream : StreamOutcome) (sf : Bool)
    (now : Nat) (ticket : JiraTicketResponse) (cache' : TicketTable)
    (hT : templates.rows = [])
    (hts : TestPlanService.getTicketStep cache jc fr tid now = .ok (ticket, cache')) :
    TestPlanService.generate tid none provider cache templates jc fr stream sf now
      = ⟨ticketEvents ticket.summary, some (.api (Errors.NotFound "Template")), []⟩ ∧
    (∀ tbl2 : TemplateTable, tbl2.rows ≠ [] →
      ∃ rt, TestPlanService.getTemplate tbl2 none = .ok rt) := by
  constructor
  · have htm : TestPlanService.getTemplate templates none
        = .error (Errors.NotFound "Template") := by
      unfold TestPlanService.getTemplate TemplateService.getDefaultTemplate
        TemplateService.getAllTemplates
      rw [hT]
      rfl
    rcases generate_shape tid none provider cache templates jc fr stream sf now with
      ⟨t, hts2, heq⟩ | ⟨ticket2, cache2, hts2, ⟨e0, htm2, heq⟩ |
        ⟨tmpl, htm2, -⟩⟩
    · rw [hts] at hts2
      cases hts2
    · rw [hts] at hts2
      simp only [Except.ok.injEq, Prod.mk.injEq] at hts2
      obtain ⟨h1, h2⟩ := hts2
      subst h1
      rw [htm] at htm2
      simp only [Except.error.injEq] at htm2
      subst htm2
      rw [heq]
      rfl
    · rw [htm] at htm2
      cases htm2
  · intro tbl2 h2
    exact getTemplate_default_fallback tbl2 h2

/-- An empty template store. -/
def emptyTemplates : TemplateTable := ⟨[], 1⟩

/-- Witness for generate_empty_store_notfound on concrete inputs. -/
theorem generate_empty_store_notfound_witness :
    emptyTemplates.rows = [] ∧
    TestPlanService.getTicketStep sampleCache true (.error .nonError) "ABC-1" 9
      = .ok (sampleTicket, sampleCache) ∧
    (TestPlanService.generate "ABC-1" none .groq sampleCache emptyTemplates
        true (.error .nonError) sampleStream false 9
      = ⟨ticketEvents sampleTicket.summary,
         some (.api (Errors.NotFound "Template")), []⟩ ∧
     (∀ tbl2 : TemplateTable, tbl2.rows ≠ [] →
       ∃ rt, TestPlanService.getTemplate tbl2 none = .ok rt)) :=
  ⟨rfl, rfl,
   generate_empty_store_notfound "ABC-1" .groq sampleCache emptyTemplates true
     (.error .nonError) sampleStream false 9 sampleTicket sampleCache rfl rfl⟩

/-! ## C9: cloud-provider authentication failure -/

/-- C9 as stated: the run emits exactly one error event, throws nothing, and
writes no history row. -/
def singleUnauthorizedErrorRun (res : GenerateResult) : Prop :=
  res.events.countP (fun e => e.type = .error) = 1 ∧
  res.thrown = none ∧
  res.history = []

/-- C9 counterexample: on a 401 from the Groq call, generate emits no error
event at all — the Unauthorized ApiError is rethrown as an exception (the SSE
route layer, outside generate, is what turns it into an error event). -/
theorem groq_unauthorized_event_refuted :
    ¬ singleUnauthorizedErrorRun
      (TestPlanService.generate "ABC-1" (some 1) .groq sampleCache sampleTemplates
        true (.error .nonError)
        (groqGenerate (some (.apiStatus 401 "Invalid API Key")) [] none) false 9) := by
  unfold singleUnauthorizedErrorRun
  decide

/-- C9 (amended): when the first Groq call fails with HTTP 401, the provider
classifies it as the Unauthorized ApiError and generate rethrows that
exception — emitting zero error events — and no history row is created. -/
theorem groq_unauthorized_rethrown (msg : String) (chunks : List String)
    (st : Option GroqCaught) (tid : String) (tmplId : Option Nat)
    (cache : TicketTable) (templates : TemplateTable) (jc : Bool)
    (fr : Except Thrown JiraTicketResponse) (sf : Bool) (now : Nat)
    (ticket : JiraTicketResponse) (cache' : TicketTable)
    (tmpl : TestPlanService.ResolvedTemplate)
    (hts : TestPlanService.getTicketStep cache jc fr tid now = .ok (ticket, cache'))
    (htm : TestPlanService.getTemplate templates tmplId = .ok tmpl) :
    (TestPlanService.generate tid tmplId .groq cache templates jc fr
        (groqGenerate (some (.apiStatus 401 msg)) chunks st) sf now).thrown
      = some (.api (Errors.Unauthorized "Invalid Groq API key")) ∧
    (TestPlanService.generate tid tmplId .groq cache templates jc fr
        (groqGenerate (some (.apiStatus 401 msg)) chunks st) sf now).events.countP
      (fun e => e.type = .error) = 0 ∧
    (TestPlanService.generate tid tmplId .groq cache templates jc fr
        (groqGenerate (some (.apiStatus 401 msg)) chunks st) sf now).history = [] := by
  have hstream : groqGenerate (some (.apiStatus 401 msg)) chunks st
      = ⟨[⟨.progress, "Generating test plan with Groq...", some 10⟩],
         some (.api (Errors.Unauthorized "Invalid Groq API key"))⟩ := rfl
  rcases generate_shape tid tmplId .groq cache templates jc fr
      (groqGenerate (some (.apiStatus 401 msg)) chunks st) sf now with
    ⟨t, hts2, heq⟩ | ⟨ticket2, cache2, hts2, ⟨e0, htm2, heq⟩ |
      ⟨tmpl2, htm2, ⟨t, hst, heq⟩ | ⟨hst, -, -⟩ | ⟨hst, -, -⟩⟩⟩
  · rw [hts] at hts2
    cases hts2
  · rw [htm] at htm2
    cases htm2
  · rw [hstream] at hst
    simp only [Option.some.injEq] at hst
    subst hst
    rw [heq, hstream]
    refine ⟨rfl, ?_, rfl⟩
    simp [TestPlanService.finishCatch, Thrown.isApi, resolveEvents,
      List.countP_append, List.countP_cons]
  · rw [hstream] at hst
    cases hst
  · rw [hstream] at hst
    cases hst

/-- Witness for groq_unauthorized_rethrown on concrete inputs. -/
theorem groq_unauthorized_rethrown_witness :
    TestPlanService.getTicketStep sampleCache true (.error .nonError) "ABC-1" 9
      = .ok (sampleTicket, sampleCache) ∧
    TestPlanService.getTemplate sampleTemplates (some 1) = .ok ⟨1, "TPL", "T"⟩ ∧
    ((TestPlanService.generate "ABC-1" (some 1) .groq sampleCache sampleTemplates
        true (.error .nonError)
        (groqGenerate (some (.apiStatus 401 "Invalid API Key")) [] none) false 9).thrown
      = some (.api (Errors.Unauthorized "Invalid Groq API key")) ∧
     (TestPlanService.generate "ABC-1" (some 1) .groq sampleCache sampleTemplates
        true (.error .nonError)
        (groqGenerate (some (.apiStatus 401 "Invalid API Key")) [] none) false 9).events.countP
        (fun e => e.type = .error) = 0 ∧
     (TestPlanService.generate "ABC-1" (some 1) .groq sampleCache sampleTemplates
        true (.error .nonError)
        (groqGenerate (some (.apiStatus 401 "Invalid API Key")) [] none) false 9).history
      = []) :=
  ⟨rfl, rfl,
   groq_unauthorized_rethrown "Invalid API Key" [] none "ABC-1" (some 1) sampleCache
     sampleTemplates true (.error .nonError) false 9 sampleTicket sampleCache
     ⟨1, "TPL", "T"⟩ rfl rfl⟩

/-! ## C8: local-provider completion-flag semantics -/

/-- The accumulator fold from an arbitrary initial string. -/
theorem accumulate_foldl (events : List Event) (x : String) :
    events.foldl (fun acc e => if e.type = .content then acc ++ e.data else acc) x
      = x ++ TestPlanService.accumulate events := by
  induction events generalizing x with
  | nil =>
    unfold TestPlanService.accumulate
    rw [List.foldl_nil, List.foldl_nil, String.append_empty]
  | cons e es ih =>
    unfold TestPlanService.accumulate
    rw [List.foldl_cons, List.foldl_cons]
    by_cases hc : e.type = .content
    · rw [if_pos hc, if_pos hc]
      have h1 := ih (x ++ e.data)
      have h2 := ih ("" ++ e.data)
      unfold TestPlanService.accumulate at h1 h2
      rw [h1, h2, String.empty_append, String.append_assoc]
    · rw [if_neg hc, if_neg hc]
      have h1 := ih x
      have h2 := ih ""
      unfold TestPlanService.accumulate at h1 h2
      rw [h1, h2, String.empty_append]

/-- The accumulator distributes over appended event lists. -/
theorem accumulate_append (l1 l2 : List Event) :
    TestPlanService.accumulate (l1 ++ l2)
      = TestPlanService.accumulate l1 ++ TestPlanService.accumulate l2 := by
  have h : TestPlanService.accumulate (l1 ++ l2)
      = l2.foldl (fun acc e => if e.type = .content then acc ++ e.data else acc)
          (TestPlanService.accumulate l1) := by
    unfold TestPlanService.accumulate
    rw [List.foldl_append]
  rw [h, accumulate_foldl]

/-- The accumulator of the empty event list. -/
theorem accumulate_nil : TestPlanService.accumulate [] = "" := rfl

/-- The accumulator unfolded one event at a time. -/
theorem accumulate_cons (e : Event) (l : List Event) :
    TestPlanService.accumulate (e :: l)
      = (if e.type = .content then e.data else "") ++ TestPlanService.accumulate l := by
  unfold TestPlanService.accumulate
  rw [List.foldl_cons]
  by_cases hc : e.type = .content
  · rw [if_pos hc, if_pos hc]
    have h := accumulate_foldl l ("" ++ e.data)
    unfold TestPlanService.accumulate at h
    rw [h, String.empty_append]
  · rw [if_neg hc, if_neg hc]
    rw [String.empty_append]

/-- The fullContent tracked by the Ollama line loop is the initial
accumulator followed by the content its emitted events carry. -/
theorem ollamaLines_acc (parse : List Char → Option OllamaResp)
    (lines : List (List Char)) : ∀ acc : String,
    (ollamaLines parse lines acc).2.1
      = acc ++ TestPlanService.accumulate (ollamaLines parse lines acc).1 := by
  induction lines with
  | nil =>
    intro acc
    simp [ollamaLines, accumulate_nil]
  | cons line rest ih =>
    intro acc
    unfold ollamaLines
    cases hbl : isBlankLine line
    · cases hp : parse line with
      | none =>
        simp only [Bool.false_eq_true, if_false]
        exact ih acc
      | some d =>
        cases hdn : d.done <;> by_cases hr : d.response = "" <;>
          simp [hr, hdn, accumulate_cons, accumulate_nil, accumulate_append,
            String.append_assoc, String.append_empty, String.empty_append, ih]
    · simp only [if_true]
      exact ih acc

/-- The fullContent tracked by the Ollama chunk loop is the initial
accumulator followed by the content its emitted events carry. -/
theorem ollamaChunks_acc (parse : List Char → Option OllamaResp)
    (chunks : List (List Char)) : ∀ (buffer : List Char) (acc : String),
    (ollamaChunks parse chunks buffer acc).2.1
      = acc ++ TestPlanService.accumulate (ollamaChunks parse chunks buffer acc).1 := by
  induction chunks with
  | nil =>
    intro buffer acc
    simp [ollamaChunks, accumulate_nil]
  | cons c cs ih =>
    intro buffer acc
    unfold ollamaChunks
    dsimp only []
    cases hdn : (ollamaLines parse (splitNl (buffer ++ c)).dropLast acc).2.2
    · simp [hdn, accumulate_append, String.append_assoc, ih, ollamaLines_acc parse]
    · simp only [hdn, if_true]
      exact ollamaLines_acc parse _ acc

/-- The orchestrator accumulator applied to an Ollama run recovers exactly
the fullContent of the provider itself. -/
theorem ollamaGenerate_accumulate (parse : List Char → Option OllamaResp)
    (chunks : List (List Char)) :
    TestPlanService.accumulate (ollamaGenerate parse chunks).events
      = (ollamaChunks parse chunks [] "").2.1 := by
  have h := ollamaChunks_acc parse chunks [] ""
  rw [String.empty_append] at h
  unfold ollamaGenerate
  dsimp only []
  cases hdn : (ollamaChunks parse chunks [] "").2.2 <;>
    simp [hdn, accumulate_append, accumulate_cons, accumulate_nil,
      String.append_empty, String.empty_append, h.symm]

/-- A recorded last element survives prepending. -/
theorem getLast?_append_of_getLast? {α : Type} (l1 l2 : List α) (x : α)
    (h : l2.getLast? = some x) : (l1 ++ l2).getLast? = some x := by
  have hne : l2 ≠ [] := by
    intro hnil
    rw [hnil] at h
    cases h
  rw [List.getLast?_append_of_ne_nil l1 hne]
  exact h

/-- When the Ollama line loop sees a completion-flagged fragment, its last
emitted event is the complete event carrying the accumulated text. -/
theorem ollamaLines_done_last (parse : List Char → Option OllamaResp)
    (lines : List (List Char)) : ∀ acc : String,
    (ollamaLines parse lines acc).2.2 = true →
    (ollamaLines parse lines acc).1.getLast?
      = some ⟨.complete, (ollamaLines parse lines acc).2.1, some 100⟩ := by
  induction lines with
  | nil =>
    intro acc h
    simp [ollamaLines] at h
  | cons line rest ih =>
    intro acc h
    unfold ollamaLines at h ⊢
    cases hbl : isBlankLine line
    · rw [hbl] at h
      simp only [Bool.false_eq_true, if_false] at h ⊢
      cases hp : parse line with
      | none =>
        rw [hp] at h
        exact ih acc h
      | some d =>
        rw [hp] at h
        dsimp only [] at h ⊢
        cases hdn : d.done
        · rw [hdn] at h
          simp only [Bool.false_eq_true, if_false] at h ⊢
          by_cases hr : d.response = ""
          · rw [if_pos hr] at h ⊢
            exact ih acc h
          · rw [if_neg hr] at h ⊢
            exact getLast?_append_of_getLast? _ _ _ (ih (acc ++ d.response) h)
        · simp only [if_true]
          exact List.getLast?_concat _
    · rw [hbl] at h
      simp only [if_true] at h ⊢
      exact ih acc h

/-- When the Ollama chunk loop hits a completion-flagged fragment, its last
emitted event is the complete event carrying the accumulated text. -/
theorem ollamaChunks_done_last (parse : List Char → Option OllamaResp)
    (chunks : List (List Char)) : ∀ (buffer : List Char) (acc : String),
    (ollamaChunks parse chunks buffer acc).2.2 = true →
    (ollamaChunks parse chunks buffer acc).1.getLast?
      = some ⟨.complete, (ollamaChunks parse chunks buffer acc).2.1, some 100⟩ := by
  induction chunks with
  | nil =>
    intro buffer acc h
    simp [ollamaChunks] at h
  | cons c cs ih =>
    intro buffer acc h
    unfold ollamaChunks at h ⊢
    dsimp only [] at h ⊢
    cases hdn : (ollamaLines parse (splitNl (buffer ++ c)).dropLast acc).2.2
    · rw [hdn] at h
      simp only [Bool.false_eq_true, if_false] at h ⊢
      exact getLast?_append_of_getLast? _ _ _ (ih _ _ h)
    · simp only [if_true]
      exact ollamaLines_done_last parse _ acc hdn

/-- Once the completion flag stops the chunk loop, any further chunks are
never read: the outcome over an extended chunk stream is unchanged. -/
theorem ollamaChunks_stop (parse : List Char → Option OllamaResp)
    (chunks extra : List (List Char)) : ∀ (buffer : List Char) (acc : String),
    (ollamaChunks parse chunks buffer acc).2.2 = true →
    ollamaChunks parse (chunks ++ extra) buffer acc
      = ollamaChunks parse chunks buffer acc := by
  induction chunks with
  | nil =>
    intro buffer acc h
    simp [ollamaChunks] at h
  | cons c cs ih =>
    intro buffer acc h
    rw [List.cons_append]
    unfold ollamaChunks at h ⊢
    dsimp only [] at h ⊢
    cases hdn : (ollamaLines parse (splitNl (buffer ++ c)).dropLast acc).2.2
    · rw [hdn] at h
      simp only [Bool.false_eq_true, if_false] at h ⊢
      rw [ih _ _ h]
    · simp only [if_true]

/-- ollamaGenerate ignores chunks after the completion flag. -/
theorem ollamaGenerate_stop (parse : List Char → Option OllamaResp)
    (chunks extra : List (List Char))
    (h : (ollamaChunks parse chunks [] "").2.2 = true) :
    ollamaGenerate parse (chunks ++ extra) = ollamaGenerate parse chunks := by
  unfold ollamaGenerate
  rw [ollamaChunks_stop parse chunks extra [] "" h]

/-- Every Ollama run ends with a complete event carrying the accumulated
text: on the completion-flagged fragment when one arrives, or at stream end
otherwise. -/
theorem ollamaGenerate_last (parse : List Char → Option OllamaResp)
    (chunks : List (List Char)) :
    (ollamaGenerate parse chunks).events.getLast?
      = some ⟨.complete, (ollamaChunks parse chunks [] "").2.1, some 100⟩ := by
  unfold ollamaGenerate
  dsimp only []
  cases hdn : (ollamaChunks parse chunks [] "").2.2
  · simp only [Bool.false_eq_true, if_false]
    exact List.getLast?_concat _
  · simp only [if_true]
    exact getLast?_append_of_getLast? _ _ _ (ollamaChunks_done_last parse chunks [] "" hdn)

/-- C8: on the first completion-flagged fragment the Ollama provider emits
complete with the accumulated text and stops reading — appending further
chunks changes nothing; when the stream closes without any completion flag,
the run is treated as ended and complete is still emitted with whatever text
was accumulated, possibly empty, in which case the orchestrator writes no
history row. -/
theorem ollama_done_flag_semantics (parse : List Char → Option OllamaResp)
    (chunksA extra chunksB : List (List Char))
    (hA : (ollamaChunks parse chunksA [] "").2.2 = true)
    (_hB : (ollamaChunks parse chunksB [] "").2.2 = false)
    (hBempty : (ollamaChunks parse chunksB [] "").2.1 = "")
    (tid : String) (tmplId : Option Nat) (cache : TicketTable)
    (templates : TemplateTable) (jc : Bool) (fr : Except Thrown JiraTicketResponse)
    (sf : Bool) (now : Nat) :
    ollamaGenerate parse (chunksA ++ extra) = ollamaGenerate parse chunksA ∧
    (ollamaGenerate parse chunksA).events.getLast?
      = some ⟨.complete, (ollamaChunks parse chunksA [] "").2.1, some 100⟩ ∧
    (ollamaGenerate parse chunksB).events.getLast?
      = some ⟨.complete, "", some 100⟩ ∧
    (TestPlanService.generate tid tmplId .ollama cache templates jc fr
        (ollamaGenerate parse chunksB) sf now).history = [] := by
  refine ⟨ollamaGenerate_stop parse chunksA extra hA,
    ollamaGenerate_last parse chunksA, ?_, ?_⟩
  · rw [ollamaGenerate_last parse chunksB, hBempty]
  · have hacc : TestPlanService.accumulate (ollamaGenerate parse chunksB).events = "" := by
      rw [ollamaGenerate_accumulate, hBempty]
    rcases generate_shape tid tmplId .ollama cache templates jc fr
        (ollamaGenerate parse chunksB) sf now with
      ⟨t, hts, heq⟩ | ⟨ticket, cache', hts, ⟨e0, htm, heq⟩ |
        ⟨tmpl, htm, ⟨t, hst, heq⟩ | ⟨hst, hfc, heq⟩ | ⟨hst, hfc, heq⟩⟩⟩
    · rw [heq]
      exact finishCatch_history _ _
    · rw [heq]
      exact finishCatch_history _ _
    · rw [heq]
      exact finishCatch_history _ _
    · rw [heq]
    · exact absurd hacc hfc

/-- A concrete model of JSON.parse for the witness: the line "B" parses to a
content fragment, the line "A" to a completion-flagged fragment with no
content, anything else is rejected. -/
def demoParse : List Char → Option OllamaResp := fun l =>
  if l = "B".toList then some ⟨"x", false⟩
  else if l = "A".toList then some ⟨"", true⟩
  else none

/-- Witness for ollama_done_flag_semantics on concrete chunk streams. -/
theorem ollama_done_flag_semantics_witness :
    (ollamaChunks demoParse ["B\nA\n".toList] [] "").2.2 = true ∧
    (ollamaChunks demoParse ([] : List (List Char)) [] "").2.2 = false ∧
    (ollamaChunks demoParse ([] : List (List Char)) [] "").2.1 = "" ∧
    (ollamaGenerate demoParse (["B\nA\n".toList] ++ ["B\n".toList])
        = ollamaGenerate demoParse ["B\nA\n".toList] ∧
     (ollamaGenerate demoParse ["B\nA\n".toList]).events.getLast?
        = some ⟨.complete, (ollamaChunks demoParse ["B\nA\n".toList] [] "").2.1, some 100⟩ ∧
     (ollamaGenerate demoParse ([] : List (List Char))).events.getLast?
        = some ⟨.complete, "", some 100⟩ ∧
     (TestPlanService.generate "ABC-1" (some 1) .ollama sampleCache sampleTemplates
        true (.error .nonError) (ollamaGenerate demoParse ([] : List (List Char)))
        false 9).history = []) :=
  ⟨by decide, by decide, by decide,
   ollama_done_flag_semantics demoParse ["B\nA\n".toList] ["B\n".toList] []
     (by decide) (by decide) (by decide) "ABC-1" (some 1) sampleCache sampleTemplates
     true (.error .nonError) false 9⟩
